import Mathlib

/-!
Shallow embedding of `scripts/get_fund_data.py` (fund NAV retrieval and
normalization) and verification of its specification.

The script fetches a tabular result from an external provider (akshare),
normalizes heterogeneous column naming into `{date, netValue,
cumulativeNetValue}` records, reconciles missing values, sorts and filters by
an optional date window, and reports JSON with an exit-code convention.

Modelling decisions:
* A pandas scalar cell is modelled abstractly by `Cell`: either null/NaN
  (`pd.notna` false), or a value carrying its string rendering (result of
  Python `str(v)`) and its optional float conversion (`float(v)`, `none` when
  the conversion raises).  Floats are modelled as `Rat`.
* A DataFrame is a `RawTable`: an ordered list of column names and rows of
  cells aligned positionally with the columns (`row[col]` lookup in the
  script's per-row loop `for col in df.columns`).
* The external provider is a parameter `provider : String → Indicator →
  ProviderResult` (the fund code and the akshare `indicator` argument decide
  the call); the pandas outer merge of the two trend tables is likewise a
  parameter, since no claim depends on its internals, only on the
  try/except fallback around it.
* Python string idioms (`' ' in s`, `s.split()[0]`, substring `in`) are
  defined over the character list of the string so they can be reasoned
  about directly.
-/

namespace FundData

/-- A scalar cell of a fetched table: either null/NaN, or a value with its
string rendering (Python `str(v)`) and optional float conversion
(`float(v)`; `none` models a conversion that raises). -/
inductive Cell where
  | missing : Cell
  | val (render : String) (asFloat : Option Rat) : Cell
deriving Repr, DecidableEq

/-- Models `float(v)` guarded by `pd.notna(v)` inside `try/except`:
`none` when the cell is null or the conversion raises. -/
def Cell.toFloat : Cell → Option Rat
  | .missing => none
  | .val _ f => f

/-- A fetched table: ordered column names, and rows of cells aligned
positionally with the columns. -/
structure RawTable where
  columns : List String
  rows : List (List Cell)
deriving Repr, DecidableEq

/-- Python whitespace as recognized by `str.split()` (CPython
`Py_UNICODE_ISSPACE`): the ASCII whitespace characters 0x09-0x0d and 0x20,
the control characters 0x1c-0x1f, next line 0x85, and the Unicode space
separators (no-break space 0xa0, Ogham space 0x1680, the 0x2000-0x200a
range, line separator 0x2028, paragraph separator 0x2029, narrow no-break
space 0x202f, medium mathematical space 0x205f, ideographic space
0x3000). -/
def pySpace (c : Char) : Bool :=
  c = ' ' || c = '\t' || c = '\n' || c = '\r' || c = '\x0b' || c = '\x0c' ||
  (('\x1c' : Char) ≤ c && c ≤ ('\x1f' : Char)) || c = '\x85' || c = '\xa0' ||
  c = '\u1680' || (('\u2000' : Char) ≤ c && c ≤ ('\u200a' : Char)) ||
  c = '\u2028' || c = '\u2029' || c = '\u202f' || c = '\u205f' || c = '\u3000'

/-- Models Python `c in s` for a single character `c`. -/
def hasChar (s : String) (c : Char) : Bool :=
  s.data.any (fun x => x = c)

/-- Models Python `s.split()[0]` inside `try/except`: the first
whitespace-delimited token of `s`, or `none` when there is no token
(the `[0]` index raises and is swallowed). -/
def pyFirstTok (s : String) : Option String :=
  match s.data.dropWhile (fun c => pySpace c) with
  | [] => none
  | c :: cs => some (String.mk ((c :: cs).takeWhile (fun x => !pySpace x)))

/-- Does `pat` match at the head of `l`? (helper for substring search) -/
def headMatches : List Char → List Char → Bool
  | [], _ => true
  | _ :: _, [] => false
  | p :: ps, c :: cs => p = c && headMatches ps cs

/-- Does `pat` occur as a contiguous run inside `l`? -/
def listHasSub (pat : List Char) : List Char → Bool
  | [] => headMatches pat []
  | c :: cs => headMatches pat (c :: cs) || listHasSub pat cs

/-- Models Python substring containment `pat in s`. -/
def strHasSub (s pat : String) : Bool :=
  listHasSub pat.data s.data

/-- ASCII lowering of one character (the effect of Python `.lower()` on the
characters the column heuristics look at). -/
def lowerChar (c : Char) : Char :=
  if 'A' ≤ c ∧ c ≤ 'Z' then Char.ofNat (c.toNat + 32) else c

/-- Models `col_str.lower()`. -/
def strLower (s : String) : String :=
  String.mk (s.data.map lowerChar)

/-- Column-name test for the date column, from the script:
`'日期' in col_str or 'date' in col_lower or 'time' in col_lower`. -/
def isDateCol (col : String) : Bool :=
  strHasSub col "日期" || strHasSub (strLower col) "date" || strHasSub (strLower col) "time"

/-- Column-name test for the unit-NAV column, from the script:
`'单位净值' in col_str and '累计' not in col_str`. -/
def isUnitNavCol (col : String) : Bool :=
  strHasSub col "单位净值" && !(strHasSub col "累计")

/-- Column-name test for the cumulative-NAV column, from the script:
`'累计净值' in col_str`. -/
def isCumNavCol (col : String) : Bool :=
  strHasSub col "累计净值"

/-- Date extraction from a cell, from the script:
`date = str(v).split()[0] if ' ' in str(v) else str(v)` guarded by
`pd.notna` inside `try/except`. -/
def extractDate : Cell → Option String
  | .missing => none
  | .val r _ => if hasChar r ' ' then pyFirstTok r else some r

/-- Per-row extraction state: the three locals `date`, `net_value`,
`cumulative_net_value` of the script, each starting at `None`. -/
structure RowState where
  date : Option String
  netValue : Option Rat
  cumulativeNetValue : Option Rat
deriving Repr, DecidableEq

/-- One iteration of the per-row column loop: each field is assigned from
the current column only when it is still `None` and the column name
matches its test. -/
def stepCol (st : RowState) (colCell : String × Cell) : RowState where
  date := if st.date.isNone && isDateCol colCell.1 then extractDate colCell.2 else st.date
  netValue :=
    if st.netValue.isNone && isUnitNavCol colCell.1 then colCell.2.toFloat else st.netValue
  cumulativeNetValue :=
    if st.cumulativeNetValue.isNone && isCumNavCol colCell.1 then colCell.2.toFloat
    else st.cumulativeNetValue

/-- The whole per-row column loop (`for col in df.columns`). -/
def extractRow (cols : List String) (row : List Cell) : RowState :=
  (cols.zip row).foldl stepCol ⟨none, none, none⟩

/-- A normalized record, fields exactly `date`, `netValue`,
`cumulativeNetValue`. -/
structure NavRecord where
  date : String
  netValue : Rat
  cumulativeNetValue : Rat
deriving Repr, DecidableEq

/-- Python truthiness of the `date` local at the acceptance test
(`if date and ...`): set and non-empty. -/
def pyTruthy : Option String → Bool
  | none => false
  | some s => s ≠ ""

/-- Value reconciliation, from the script: first copy cumulative into unit
when unit is missing, then copy (the possibly updated) unit into cumulative
when cumulative is missing. -/
def reconcile (n c : Option Rat) : Option Rat × Option Rat :=
  let n' := if n.isNone && c.isSome then c else n
  let c' := if c.isNone && n'.isSome then n' else c
  (n', c')

/-- Row acceptance and record construction, from the script, lines 108-124:
guard `if date and (net_value is not None or cumulative_net_value is not
None)`, reconciliation, then the positivity check before `data.append`.
Per-row processing is total: a row failing any test yields `none`
(dropped), never an error. -/
def normalizeRow (cols : List String) (row : List Cell) : Option NavRecord :=
  let st := extractRow cols row
  if pyTruthy st.date && (st.netValue.isSome || st.cumulativeNetValue.isSome) then
    match reconcile st.netValue st.cumulativeNetValue with
    | (some n, some c) =>
      if 0 < n && 0 < c then some ⟨st.date.getD "", n, c⟩ else none
    | _ => none
  else none

/-- The per-table normalization loop building `data`. -/
def normalizeTable (t : RawTable) : List NavRecord :=
  t.rows.filterMap (normalizeRow t.columns)

/-- Lexicographic order on character lists by code point. -/
def listLe : List Char → List Char → Bool
  | [], _ => true
  | _ :: _, [] => false
  | a :: as, b :: bs => a < b || (a = b && listLe as bs)

/-- Models Python string comparison `a <= b`: lexicographic by code
point. -/
def strLe (a b : String) : Bool :=
  listLe a.data b.data

/-- Sort key comparison: `data.sort(key=lambda x: x['date'])`, lexical
string order. -/
def dateLe (a b : NavRecord) : Bool :=
  strLe a.date b.date

/-- The stable ascending sort by date. -/
def sortByDate (l : List NavRecord) : List NavRecord :=
  l.mergeSort dateLe

/-- Date-window filtering, from the script: the guards are `if start_date:`
and `if end_date:`, Python truthiness, so a bound that is absent OR the
empty string skips its filter; a truthy start bound keeps
`date >= start_date`, then a truthy end bound keeps `date <= end_date`. -/
def filterByRange (data : List NavRecord) (s e : Option String) : List NavRecord :=
  let d1 := match s with
    | none => data
    | some sd => if sd = "" then data else data.filter (fun r => strLe sd r.date)
  match e with
  | none => d1
  | some ed => if ed = "" then d1 else d1.filter (fun r => strLe r.date ed)

/-- Message of the `NoValidRecords` failure (line 127 of the script). -/
def noValidRecordsMsg : String :=
  "未能从返回数据中提取有效的净值信息，请检查基金代码是否正确"

/-- Message of the `NoDataAvailable` failure (line 66): note it embeds
`str(last_error)` but not the fund code. -/
def noDataMsg (lastErr : String) : String :=
  "无法获取基金数据，请检查基金代码是否正确。最后错误: " ++ lastErr

/-- Python `str(last_error)`: the literal `None` when no error was
recorded. -/
def strOfLastError : Option String → String
  | none => "None"
  | some m => m

/-- Normalization, `NoValidRecords` check, sort and filter — the part of
`get_fund_data` after a table has been obtained (lines 68-138). -/
def processTable (t : RawTable) (s e : Option String) : Except String (List NavRecord) :=
  let data := normalizeTable t
  if data.isEmpty then .error noValidRecordsMsg
  else .ok (filterByRange (sortByDate data) s e)

/-- The akshare `indicator` argument of a retrieval call:
the unit-NAV trend (`单位净值走势`) or the cumulative-NAV trend
(`累计净值走势`). -/
inductive Indicator where
  | unitNav : Indicator
  | cumNav : Indicator
deriving Repr, DecidableEq

/-- Outcome of one provider call: a DataFrame (possibly with zero rows),
the Python value `None`, or a raised exception with its message. -/
inductive ProviderResult where
  | ok (t : RawTable) : ProviderResult
  | null : ProviderResult
  | err (msg : String) : ProviderResult
deriving Repr, DecidableEq

/-- `any('累计净值' in str(col) for col in df.columns)` (line 34). -/
def hasCumulativeCol (t : RawTable) : Bool :=
  t.columns.any (fun c => strHasSub c "累计净值")

/-- The date-column search of the merge step (lines 41-45): the first column
whose name contains `日期` (only that token, unlike the per-row date test). -/
def findDateCol (t : RawTable) : Option String :=
  t.columns.find? (fun c => strHasSub c "日期")

/-- `df.empty` for our table model. -/
def RawTable.isEmptyTable (t : RawTable) : Bool :=
  t.rows.isEmpty

/-- The fetch phase of `get_fund_data` (lines 26-66).  `provider code ind`
models `ak.fund.fund_em.fund_open_fund_info_em(symbol=code, indicator=ind,
period=成立来)`; `mergeFn` models `df.merge(df_cumulative, on=date_col,
how=outer, suffixes=('', '_cum'))`, `.error` modelling a merge that raises.
Returns the obtained table or the `NoDataAvailable` failure message. -/
def fetchTable (provider : String → Indicator → ProviderResult)
    (mergeFn : RawTable → RawTable → String → Except String RawTable)
    (code : String) : Except String RawTable :=
  -- 方法1: unit-NAV trend, with the optional cumulative merge
  let step1 : Option RawTable × Option String :=
    match provider code .unitNav with
    | .err m => (none, some m)
    | .null => (none, none)
    | .ok t =>
      if t.isEmptyTable then (some t, none)
      else if hasCumulativeCol t then (some t, none)
      else
        -- inner try: a failure anywhere here is swallowed (`except: pass`)
        match provider code .cumNav with
        | .err _ => (some t, none)
        | .null => (some t, none)
        | .ok tc =>
          if tc.isEmptyTable then (some t, none)
          else
            match findDateCol t with
            | none => (some t, none)
            | some dcol =>
              match mergeFn t tc dcol with
              | .ok merged => (some merged, none)
              | .error _ => (some t, none)
  -- 方法2: cumulative-NAV trend, when method 1 produced nothing usable
  let step2 : Option RawTable × Option String :=
    match step1.1 with
    | some t =>
      if t.isEmptyTable then
        match provider code .cumNav with
        | .err m => (none, some m)
        | .null => (none, step1.2)
        | .ok t2 => (some t2, step1.2)
      else (some t, step1.2)
    | none =>
      match provider code .cumNav with
      | .err m => (none, some m)
      | .null => (none, step1.2)
      | .ok t2 => (some t2, step1.2)
  match step2.1 with
  | none => .error (noDataMsg (strOfLastError step2.2))
  | some t =>
    if t.isEmptyTable then .error (noDataMsg (strOfLastError step2.2))
    else .ok t

/-- The whole `get_fund_data` function: fetch, normalize, sort, filter, with
the outer `except` wrapping any failure message (line 141). -/
def get_fund_data (provider : String → Indicator → ProviderResult)
    (mergeFn : RawTable → RawTable → String → Except String RawTable)
    (code : String) (start_date end_date : Option String) :
    Except String (List NavRecord) :=
  match fetchTable provider mergeFn code with
  | .error m => .error ("获取基金数据失败: " ++ m)
  | .ok t =>
    match processTable t start_date end_date with
    | .error m => .error ("获取基金数据失败: " ++ m)
    | .ok d => .ok d

/-- The single JSON document printed by `__main__`: the success envelope,
the failure envelope, or the missing-argument envelope (which has no
`success` key). -/
inductive OutDoc where
  | success (data : List NavRecord) : OutDoc
  | failure (errMsg : String) : OutDoc
  | missingArg (errMsg : String) : OutDoc
deriving Repr, DecidableEq

/-- The `__main__` block, as a function from the argument list (what follows
the program name in `sys.argv`) to the printed document and the process exit
code.  `sys.exit(1)` raises `SystemExit`, which the `except Exception`
handler does not catch, so the missing-argument path prints exactly one
document. -/
def runMain (provider : String → Indicator → ProviderResult)
    (mergeFn : RawTable → RawTable → String → Except String RawTable)
    (args : List String) : OutDoc × Nat :=
  match args with
  | [] => (.missingArg "请提供基金代码", 1)
  | code :: rest =>
    match get_fund_data provider mergeFn code rest[0]? rest[1]? with
    | .ok d => (.success d, 0)
    | .error m => (.failure m, 1)

/-! Specification-side predicates, used to state the claims against the
embedded code. -/

/-- Row acceptance as the specification words it (with the non-empty date
refinement): a date was found, and after reconciliation both values are set
and strictly positive. -/
def acceptedRow (cols : List String) (row : List Cell) : Bool :=
  let st := extractRow cols row
  pyTruthy st.date &&
    match reconcile st.netValue st.cumulativeNetValue with
    | (some n, some c) => decide (0 < n) && decide (0 < c)
    | _ => false

/-- The record an accepted row yields: the extracted date and the
reconciled pair of values. -/
def recordOf (cols : List String) (row : List Cell) : NavRecord :=
  let st := extractRow cols row
  let nc := reconcile st.netValue st.cumulativeNetValue
  ⟨st.date.getD "", nc.1.getD 0, nc.2.getD 0⟩

/-- The first date value obtainable from the row: scanning the columns in
table order, the first date-named column whose cell yields a date. -/
def specFirstDate (cols : List String) (row : List Cell) : Option String :=
  ((cols.zip row).filterMap
    (fun p => if isDateCol p.1 then extractDate p.2 else none)).head?

/-- Membership of a record in the optional inclusive date window, each
bound applied independently, a bound restricting only when it is given and
non-empty (Python truthiness of the bound string). -/
def inBounds (r : NavRecord) (s e : Option String) : Bool :=
  (match s with
    | none => true
    | some sd => if sd = "" then true else strLe sd r.date) &&
  (match e with
    | none => true
    | some ed => if ed = "" then true else strLe r.date ed)

/-- Did this retrieval variant fail to produce usable data (raised,
returned `None`, or returned an empty table)? -/
def variantFailed : ProviderResult → Bool
  | .ok t => t.isEmptyTable
  | .null => true
  | .err _ => true

/-- The `last_error` local after both variants failed: a method-2 exception
wins, else a method-1 exception, else nothing was recorded. -/
def lastErrorOf : ProviderResult → ProviderResult → Option String
  | _, .err m => some m
  | .err m, _ => some m
  | _, _ => none

/-! Concrete data used by witnesses and counterexamples. -/

/-- The rational 3/2, the float value 1.5. -/
def q3over2 : Rat := ⟨3, 2, by decide, by decide⟩

/-- The rational 617/500, the float value 1.234. -/
def q1234 : Rat := ⟨617, 500, by decide, by decide⟩

/-- The rational 2. -/
def q2 : Rat := ⟨2, 1, by decide, by decide⟩

/-- The rational 6/5, the float value 1.2. -/
def q6over5 : Rat := ⟨6, 5, by decide, by decide⟩

/-- The rational 17/5, the float value 3.4. -/
def q17over5 : Rat := ⟨17, 5, by decide, by decide⟩

/-- A table whose single row has an empty-string date cell and a positive
unit NAV. -/
def tEmptyDate : RawTable :=
  ⟨["date", "单位净值"], [[.val "" none, .val "1.5" (some q3over2)]]⟩

/-- A table whose single row has a date and a unit NAV of 1.234, with no
cumulative-NAV column. -/
def tGood : RawTable :=
  ⟨["净值日期", "单位净值"], [[.val "2023-01-01" none, .val "1.234" (some q1234)]]⟩

/-- The record the single row of `tGood` normalizes to. -/
def recGood : NavRecord := ⟨"2023-01-01", q1234, q1234⟩

/-- A non-empty table none of whose rows has a parseable NAV value. -/
def tBad : RawTable :=
  ⟨["日期", "单位净值"], [[.val "2023-01-01" none, .val "abc" none]]⟩

/-- A provider answering the unit-NAV trend with `tGood` and the
cumulative-NAV trend with `None`. -/
def provGood : String → Indicator → ProviderResult :=
  fun _ i => match i with | .unitNav => .ok tGood | .cumNav => .null

/-- A provider answering the unit-NAV trend with `tBad` and the
cumulative-NAV trend with `None`. -/
def provBad : String → Indicator → ProviderResult :=
  fun _ i => match i with | .unitNav => .ok tBad | .cumNav => .null

/-- A provider whose every call raises with message `boom`. -/
def provDown : String → Indicator → ProviderResult :=
  fun _ _ => .err "boom"

/-- A merge that always raises (never used on the paths under test). -/
def mergeNever : RawTable → RawTable → String → Except String RawTable :=
  fun _ _ _ => .error "merge failed"

/-- Column list of the C6 counterexample: two date-named columns before the
unit-NAV column. -/
def c6cols : List String := ["date", "time", "单位净值"]

/-- Row of the C6 counterexample: the first date-named column holds a null
cell, the second a date. -/
def c6row : List Cell := [.missing, .val "2023-05-05" none, .val "2" (some q2)]

/-- Column list of the C10 witness: date, unit NAV and cumulative NAV all
present. -/
def c10cols : List String := ["净值日期", "单位净值", "累计净值"]

/-- Row of the C10 witness: both NAV values present and distinct. -/
def c10row : List Cell :=
  [.val "2023-01-01" none, .val "1.2" (some q6over5), .val "3.4" (some q17over5)]

/-! Helper lemmas. -/

/-- A per-row normalization is acceptance followed by record construction:
rows failing acceptance yield nothing (and no error). -/
theorem normalizeRow_eq (cols : List String) (row : List Cell) :
    normalizeRow cols row =
      if acceptedRow cols row then some (recordOf cols row) else none := by
  unfold normalizeRow acceptedRow recordOf
  rcases extractRow cols row with ⟨d, n, c⟩
  rcases d with _ | d
  · simp [pyTruthy]
  rcases n with _ | a <;> rcases c with _ | b
  · simp [pyTruthy, reconcile]
  · by_cases hd : d = "" <;> by_cases hb : (0:Rat) < b <;>
      simp [pyTruthy, reconcile, hd, hb]
  · by_cases hd : d = "" <;> by_cases ha : (0:Rat) < a <;>
      simp [pyTruthy, reconcile, hd, ha]
  · by_cases hd : d = "" <;> by_cases ha : (0:Rat) < a <;>
      by_cases hb : (0:Rat) < b <;>
      simp [pyTruthy, reconcile, hd, ha, hb]

/-- `filterMap` by a function that acts as a guarded map is a filter
followed by a map. -/
theorem filterMap_guard {α β : Type} (f : α → Option β) (p : α → Bool)
    (g : α → β) (h : ∀ a, f a = if p a then some (g a) else none) :
    ∀ l : List α, l.filterMap f = (l.filter p).map g := by
  intro l
  induction l with
  | nil => simp
  | cons x xs ih =>
    rw [List.filterMap_cons, List.filter_cons, h x]
    by_cases hp : p x <;> simp [hp, ih]

/-- `listLe` is transitive. -/
theorem listLe_trans : ∀ {a b c : List Char},
    listLe a b = true → listLe b c = true → listLe a c = true
  | [], _, _, _, _ => by simp [listLe]
  | _ :: _, [], _, h, _ => by simp [listLe] at h
  | _ :: _, _ :: _, [], _, h2 => by simp [listLe] at h2
  | a :: as, b :: bs, c :: cs, h1, h2 => by
    simp only [listLe, Bool.or_eq_true, Bool.and_eq_true, decide_eq_true_eq] at h1 h2 ⊢
    rcases h1 with h1 | ⟨rfl, h1⟩
    · rcases h2 with h2 | ⟨rfl, h2⟩
      · exact Or.inl (lt_trans h1 h2)
      · exact Or.inl h1
    · rcases h2 with h2 | ⟨rfl, h2⟩
      · exact Or.inl h2
      · exact Or.inr ⟨rfl, listLe_trans h1 h2⟩

/-- `listLe` is total. -/
theorem listLe_total : ∀ (a b : List Char), listLe a b || listLe b a
  | [], _ => by simp [listLe]
  | _ :: _, [] => by simp [listLe]
  | a :: as, b :: bs => by
    simp only [listLe, Bool.or_eq_true, Bool.and_eq_true, decide_eq_true_eq]
    rcases lt_trichotomy a b with h | rfl | h
    · exact Or.inl (Or.inl h)
    · have htot := listLe_total as bs
      rw [Bool.or_eq_true] at htot
      rcases htot with h | h
      · exact Or.inl (Or.inr ⟨rfl, h⟩)
      · exact Or.inr (Or.inr ⟨rfl, h⟩)
    · exact Or.inr (Or.inl h)

/-- A list matches itself at its head. -/
theorem headMatches_self : ∀ l : List Char, headMatches l l = true
  | [] => rfl
  | c :: cs => by simp [headMatches, headMatches_self cs]

/-- A suffix occurs as a contiguous run. -/
theorem listHasSub_append : ∀ (xs pat : List Char), listHasSub pat (xs ++ pat) = true
  | [], pat => by
    rcases pat with _ | ⟨c, cs⟩
    · rfl
    · simp [listHasSub, headMatches_self]
  | x :: xs, pat => by
    simp [listHasSub, listHasSub_append xs pat]

/-- A string contains every suffix of itself. -/
theorem strHasSub_append (a b : String) : strHasSub (a ++ b) b = true := by
  rcases a with ⟨as⟩
  rcases b with ⟨bs⟩
  show listHasSub bs (as ++ bs) = true
  exact listHasSub_append as bs

/-- The date local after the column loop: the first date-named column whose
cell yields a date, columns that yield nothing being skipped. -/
theorem foldl_stepCol_date : ∀ (l : List (String × Cell)) (st : RowState),
    (l.foldl stepCol st).date =
      st.date.or ((l.filterMap
        (fun p => if isDateCol p.1 then extractDate p.2 else none)).head?)
  | [], st => by simp
  | p :: ps, st => by
    rw [List.foldl_cons, foldl_stepCol_date ps (stepCol st p)]
    rcases hd : st.date with _ | d
    · simp only [stepCol, hd, Option.isNone_none, Bool.true_and, Option.or, List.filterMap_cons]
      rcases hc : isDateCol p.1 with _ | _
      · simp [hc]
      · simp only [hc, if_true]
        rcases he : extractDate p.2 with _ | v <;> simp [he]
    · simp [stepCol, hd, Option.or]

/-- The date window is a single filter by `inBounds`. -/
theorem filterByRange_eq (l : List NavRecord) (s e : Option String) :
    filterByRange l s e = l.filter (fun r => inBounds r s e) := by
  rcases s with _ | sd <;> rcases e with _ | ed
  · simp [filterByRange, inBounds]
  · by_cases he : ed = "" <;> simp [filterByRange, inBounds, he]
  · by_cases hs : sd = "" <;> simp [filterByRange, inBounds, hs]
  · by_cases hs : sd = "" <;> by_cases he : ed = "" <;>
      simp [filterByRange, inBounds, hs, he, List.filter_filter, Bool.and_comm]

/-! Claim theorems. -/

/-- C1, counterexample: in the table `tEmptyDate` a date was extracted for
the row (the empty string) and after reconciliation both values are set and
strictly positive, yet the row is dropped: the acceptance test uses Python
truthiness of the date, so the claim as stated fails. -/
theorem C1_counterexample :
    (extractRow tEmptyDate.columns [.val "" none, .val "1.5" (some q3over2)]).date.isSome = true
    ∧ reconcile
        (extractRow tEmptyDate.columns [.val "" none, .val "1.5" (some q3over2)]).netValue
        (extractRow tEmptyDate.columns [.val "" none, .val "1.5" (some q3over2)]).cumulativeNetValue
      = (some q3over2, some q3over2)
    ∧ (0 : Rat) < q3over2
    ∧ normalizeTable tEmptyDate = [] :=
  ⟨rfl, rfl, by decide, rfl⟩

/-- C1 (amended): a row of a fetched table is emitted as a NavRecord if and
only if a NON-EMPTY date string was extracted for it and, after
reconciliation, both values are set and strictly positive; each accepted
row yields exactly one record, in table order, and every other row is
dropped silently (per-row processing is total). -/
theorem C1_row_acceptance (t : RawTable) :
    normalizeTable t =
      (t.rows.filter (acceptedRow t.columns)).map (recordOf t.columns) := by
  unfold normalizeTable
  exact filterMap_guard _ _ _ (normalizeRow_eq t.columns) t.rows

/-- C2: when a date was found and exactly one of the two NAV values was
extracted, the emitted record carries the present value in both fields. -/
theorem C2_reconcile_missing (cols : List String) (row : List Cell)
    (v : Rat) (rec : NavRecord)
    (hone : ((extractRow cols row).netValue = some v ∧
              (extractRow cols row).cumulativeNetValue = none)
          ∨ ((extractRow cols row).netValue = none ∧
              (extractRow cols row).cumulativeNetValue = some v))
    (hemit : normalizeRow cols row = some rec) :
    rec.netValue = v ∧ rec.cumulativeNetValue = v := by
  rw [normalizeRow_eq] at hemit
  by_cases hacc : acceptedRow cols row
  · rw [if_pos hacc] at hemit
    injection hemit with hrec
    subst hrec
    unfold recordOf
    rcases hone with ⟨h1, h2⟩ | ⟨h1, h2⟩ <;> simp [h1, h2, reconcile]
  · rw [if_neg hacc] at hemit
    exact absurd hemit (by simp)

/-- C2, witness: a row with unit NAV 1.234 and no cumulative-NAV column
yields netValue = 1.234 and cumulativeNetValue = 1.234. -/
theorem C2_witness :
    recGood.netValue = q1234 ∧ recGood.cumulativeNetValue = q1234 :=
  C2_reconcile_missing tGood.columns
    [.val "2023-01-01" none, .val "1.234" (some q1234)] q1234 recGood
    (Or.inl ⟨rfl, rfl⟩) rfl

/-- C3, counterexample: with the end bound given as the empty string, the
program skips the end filter (`if end_date:` is Python truthiness) and
returns every record, although no record has a date lexically ≤ that bound
— the claimed restriction does not apply at a given empty bound. -/
theorem C3_counterexample :
    filterByRange (sortByDate [recGood]) none (some "") = [recGood]
    ∧ strLe recGood.date "" = false := by
  constructor
  · simp [sortByDate, filterByRange]
  · decide

/-- C3 (amended): the filter/sort stage returns the accepted records sorted
ascending by lexical comparison of the date field, restricted to the
inclusive, independently applied optional bounds (a permutation of the
in-bounds records, in nondecreasing date order), where a bound restricts
only when it is given AND non-empty: an absent or empty-string bound
imposes no restriction on its side. -/
theorem C3_sort_and_filter (recs : List NavRecord) (s e : Option String) :
    List.Sorted (fun a b : NavRecord => strLe a.date b.date = true)
      (filterByRange (sortByDate recs) s e)
    ∧ (filterByRange (sortByDate recs) s e).Perm
        (recs.filter (fun r => inBounds r s e)) := by
  rw [filterByRange_eq]
  constructor
  · have htrans : ∀ (a b c : NavRecord), dateLe a b → dateLe b c → dateLe a c :=
      fun _ _ _ hab hbc => listLe_trans hab hbc
    have htotal : ∀ (a b : NavRecord), dateLe a b || dateLe b a :=
      fun a b => listLe_total a.date.data b.date.data
    have hs : (sortByDate recs).Pairwise (fun a b => dateLe a b = true) := by
      unfold sortByDate
      exact List.sorted_mergeSort htrans htotal recs
    exact hs.filter _
  · exact (List.mergeSort_perm recs dateLe).filter _

/-- C4: when the fetched table is non-empty but no row survives acceptance,
`get_fund_data` fails with the NoValidRecords message rather than returning
an empty list. -/
theorem C4_no_valid_records (provider : String → Indicator → ProviderResult)
    (mergeFn : RawTable → RawTable → String → Except String RawTable)
    (code : String) (s e : Option String) (t : RawTable)
    (hfetch : fetchTable provider mergeFn code = .ok t)
    (hne : t.rows ≠ [])
    (hall : normalizeTable t = []) :
    get_fund_data provider mergeFn code s e =
      .error ("获取基金数据失败: " ++ noValidRecordsMsg) := by
  simp [get_fund_data, hfetch, processTable, hall]

/-- C4, witness: a non-empty table whose only row has an unparseable NAV
value makes the pipeline fail with NoValidRecords. -/
theorem C4_witness :
    get_fund_data provBad mergeNever "000001" none none =
      .error ("获取基金数据失败: " ++ noValidRecordsMsg) :=
  C4_no_valid_records provBad mergeNever "000001" none none tBad rfl
    (by decide) rfl

/-- C5, counterexample: with every variant raising `boom` and fund code
`000001`, the failure message embeds the last underlying error but does NOT
contain the fund code, refuting the claim that it carries both. -/
theorem C5_counterexample :
    get_fund_data provDown mergeNever "000001" none none =
      .error "获取基金数据失败: 无法获取基金数据，请检查基金代码是否正确。最后错误: boom"
    ∧ strHasSub
        "获取基金数据失败: 无法获取基金数据，请检查基金代码是否正确。最后错误: boom" "boom" = true
    ∧ strHasSub
        "获取基金数据失败: 无法获取基金数据，请检查基金代码是否正确。最后错误: boom" "000001" = false :=
  ⟨rfl, by decide, by decide⟩

/-- C5 (amended): if every retrieval variant returns null/empty or raises,
`get_fund_data` fails with the NoDataAvailable message, which contains the
string form of the last underlying error (but not the fund code). -/
theorem C5_no_data (provider : String → Indicator → ProviderResult)
    (mergeFn : RawTable → RawTable → String → Except String RawTable)
    (code : String) (s e : Option String)
    (h1 : variantFailed (provider code .unitNav) = true)
    (h2 : variantFailed (provider code .cumNav) = true) :
    get_fund_data provider mergeFn code s e =
      .error ("获取基金数据失败: " ++ noDataMsg (strOfLastError
        (lastErrorOf (provider code .unitNav) (provider code .cumNav))))
    ∧ strHasSub
        ("获取基金数据失败: " ++ noDataMsg (strOfLastError
          (lastErrorOf (provider code .unitNav) (provider code .cumNav))))
        (strOfLastError
          (lastErrorOf (provider code .unitNav) (provider code .cumNav))) = true := by
  constructor
  · unfold get_fund_data fetchTable
    rcases ha : provider code .unitNav with t | _ | m <;>
      rcases hb : provider code .cumNav with t2 | _ | m2 <;>
      simp_all [variantFailed, lastErrorOf]
  · set x := strOfLastError
      (lastErrorOf (provider code .unitNav) (provider code .cumNav)) with hx
    show strHasSub ("获取基金数据失败: " ++ ("无法获取基金数据，请检查基金代码是否正确。最后错误: " ++ x)) x = true
    show listHasSub x.data
      ("获取基金数据失败: " ++ ("无法获取基金数据，请检查基金代码是否正确。最后错误: " ++ x)).data = true
    rw [String.data_append, String.data_append, ← List.append_assoc]
    exact listHasSub_append _ _

/-- C5, witness: the amended statement at the all-raising provider. -/
theorem C5_witness :
    get_fund_data provDown mergeNever "000002" none none =
      .error ("获取基金数据失败: " ++ noDataMsg (strOfLastError
        (lastErrorOf (provDown "000002" .unitNav) (provDown "000002" .cumNav))))
    ∧ strHasSub
        ("获取基金数据失败: " ++ noDataMsg (strOfLastError
          (lastErrorOf (provDown "000002" .unitNav) (provDown "000002" .cumNav))))
        (strOfLastError
          (lastErrorOf (provDown "000002" .unitNav) (provDown "000002" .cumNav))) = true :=
  C5_no_data provDown mergeNever "000002" none none rfl rfl

/-- C6, counterexample: the first date-named column of `c6cols` holds a
null cell, yet the date is taken from the SECOND date-named column and the
row is emitted — later date-named columns are consulted, refuting the claim
that the date is then left unset. -/
theorem C6_counterexample :
    c6cols.head? = some "date"
    ∧ isDateCol "date" = true
    ∧ c6row.head? = some Cell.missing
    ∧ (extractRow c6cols c6row).date = some "2023-05-05"
    ∧ normalizeRow c6cols c6row = some ⟨"2023-05-05", q2, q2⟩ :=
  ⟨rfl, by decide, rfl, rfl, rfl⟩

/-- C6 (amended): the row's date is the value yielded by the FIRST
date-named column whose cell produces one; date-named columns whose cell is
null (or whose extraction fails) are skipped and later date-named columns
are consulted. -/
theorem C6_first_yielding_date (cols : List String) (row : List Cell) :
    (extractRow cols row).date = specFirstDate cols row := by
  unfold extractRow specFirstDate
  rw [foldl_stepCol_date]
  rfl

/-- C7, counterexample: a date cell containing a tab (whitespace) but no
ASCII space is kept whole, refuting the claim that any whitespace triggers
truncation to the portion preceding it. -/
theorem C7_counterexample :
    ("2023-01-01\t08:00".data.any (fun c => pySpace c)) = true
    ∧ extractDate (.val "2023-01-01\t08:00" none) = some "2023-01-01\t08:00"
    ∧ ("2023-01-01\t08:00" : String) ≠ "2023-01-01" :=
  ⟨by decide, rfl, by decide⟩

/-- C7 (amended): truncation is triggered by an ASCII space only: a string
with no space (even one containing other whitespace) is kept unchanged,
and a string containing a space whose first character is not whitespace is
truncated to the portion preceding its first whitespace character. -/
theorem C7_space_truncation (r : String) (f : Option Rat) :
    (hasChar r ' ' = false → extractDate (.val r f) = some r)
    ∧ (∀ c cs, r.data = c :: cs → hasChar r ' ' = true → pySpace c = false →
        extractDate (.val r f) =
          some (String.mk ((c :: cs).takeWhile (fun x => !pySpace x)))) := by
  constructor
  · intro h
    simp [extractDate, h]
  · intro c cs hr hsp hc
    simp only [extractDate, hsp, if_true]
    unfold pyFirstTok
    rw [hr, List.dropWhile_cons, hc]
    simp

/-- C7, witness: the no-space case, plain truncation at a space, and
truncation stopping at a no-break space (U+00A0) in a cell that contains an
ASCII space later — the split is at the first Python-whitespace
character. -/
theorem C7_witness :
    extractDate (.val "2023-01-01" none) = some "2023-01-01"
    ∧ extractDate (.val "2023-01-01 08:00" none) =
        some (String.mk (('2' :: "023-01-01 08:00".data).takeWhile
          (fun x => !pySpace x)))
    ∧ extractDate (.val "ab\u00a0cd ef" none) = some "ab" :=
  ⟨(C7_space_truncation "2023-01-01" none).1 (by decide),
   (C7_space_truncation "2023-01-01 08:00" none).2 '2' "023-01-01 08:00".data
     (by decide) (by decide) (by decide),
   by
     have h := (C7_space_truncation "ab\u00a0cd ef" none).2 'a' "b\u00a0cd ef".data
       (by decide) (by decide) (by decide)
     rw [h]
     rfl⟩

/-- C8: the process emits exactly one document per invocation (`sys.exit`
raises `SystemExit`, which `except Exception` does not catch): with no
argument the success-less `error` envelope and exit 1; on a pipeline
success the `success: true` envelope with the records and exit 0; on a
pipeline failure the `success: false` envelope with the message and
exit 1. -/
theorem C8_reporter (provider : String → Indicator → ProviderResult)
    (mergeFn : RawTable → RawTable → String → Except String RawTable)
    (args : List String) :
    (args = [] → runMain provider mergeFn args = (.missingArg "请提供基金代码", 1))
    ∧ (∀ code rest d, args = code :: rest →
        get_fund_data provider mergeFn code rest[0]? rest[1]? = .ok d →
        runMain provider mergeFn args = (.success d, 0))
    ∧ (∀ code rest m, args = code :: rest →
        get_fund_data provider mergeFn code rest[0]? rest[1]? = .error m →
        runMain provider mergeFn args = (.failure m, 1)) := by
  refine ⟨?_, ?_, ?_⟩
  · rintro rfl; rfl
  · rintro code rest d rfl hok
    simp [runMain, hok]
  · rintro code rest m rfl herr
    simp [runMain, herr]

/-- C8, witness: the three envelopes at concrete invocations. -/
theorem C8_witness :
    runMain provGood mergeNever [] = (.missingArg "请提供基金代码", 1)
    ∧ runMain provGood mergeNever ["000001"] = (.success [recGood], 0)
    ∧ runMain provDown mergeNever ["000001"] =
        (.failure "获取基金数据失败: 无法获取基金数据，请检查基金代码是否正确。最后错误: boom", 1) :=
  ⟨(C8_reporter provGood mergeNever []).1 rfl,
   (C8_reporter provGood mergeNever ["000001"]).2.1 "000001" [] [recGood] rfl
     (by
       have hf : fetchTable provGood mergeNever "000001" = .ok tGood := rfl
       have hn : normalizeTable tGood = [recGood] := rfl
       simp [get_fund_data, hf, processTable, hn, sortByDate, filterByRange]),
   (C8_reporter provDown mergeNever ["000001"]).2.2 "000001" [] _ rfl rfl⟩

/-- C9: when at least one row survives acceptance but the date window
excludes every record, the run still succeeds with an empty list — the
NoValidRecords check precedes date filtering, so filtering alone never
fails. -/
theorem C9_filter_cannot_fail (provider : String → Indicator → ProviderResult)
    (mergeFn : RawTable → RawTable → String → Except String RawTable)
    (code : String) (s e : Option String) (t : RawTable)
    (hfetch : fetchTable provider mergeFn code = .ok t)
    (hsome : normalizeTable t ≠ [])
    (hexcl : filterByRange (sortByDate (normalizeTable t)) s e = []) :
    get_fund_data provider mergeFn code s e = .ok []
    ∧ ∀ sd ed, s = some sd → e = some ed →
        runMain provider mergeFn [code, sd, ed] = (.success [], 0) := by
  have hmain : get_fund_data provider mergeFn code s e = .ok [] := by
    simp [get_fund_data, hfetch, processTable, List.isEmpty_eq_false.2 hsome, hexcl]
  refine ⟨hmain, ?_⟩
  rintro sd ed rfl rfl
  simp [runMain, hmain]

/-- C9, witness: one accepted record dated 2023-01-01 with window
2024-01-01..2025-01-01 yields a successful empty result. -/
theorem C9_witness :
    get_fund_data provGood mergeNever "000001"
      (some "2024-01-01") (some "2025-01-01") = .ok []
    ∧ runMain provGood mergeNever ["000001", "2024-01-01", "2025-01-01"] =
        (.success [], 0) := by
  have h := C9_filter_cannot_fail provGood mergeNever "000001"
    (some "2024-01-01") (some "2025-01-01") tGood rfl (by decide)
    (by
      have hn : normalizeTable tGood = [recGood] := rfl
      rw [hn]
      simp [sortByDate, filterByRange]
      decide)
  exact ⟨h.1, h.2 "2024-01-01" "2025-01-01" rfl rfl⟩

/-- C10: when both NAV values are extracted (and a non-empty date is
found), the emitted record carries exactly the two parsed source values:
reconciliation never overwrites a present value. -/
theorem C10_values_kept (cols : List String) (row : List Cell)
    (d : String) (a b : Rat)
    (hd : (extractRow cols row).date = some d) (hne : d ≠ "")
    (hn : (extractRow cols row).netValue = some a)
    (hc : (extractRow cols row).cumulativeNetValue = some b)
    (ha : 0 < a) (hb : 0 < b) :
    normalizeRow cols row = some ⟨d, a, b⟩ := by
  simp [normalizeRow, hd, hn, hc, pyTruthy, hne, reconcile, ha, hb]

/-- C10, witness: distinct unit (1.2) and cumulative (3.4) values are both
kept as extracted. -/
theorem C10_witness :
    normalizeRow c10cols c10row = some ⟨"2023-01-01", q6over5, q17over5⟩ :=
  C10_values_kept c10cols c10row "2023-01-01" q6over5 q17over5 rfl
    (by decide) rfl rfl (by decide) (by decide)

end FundData
